import Mathlib

/-!
Shallow embedding of the monitoring core of `mine_core_system.py`
(classes `AdvancedPhosphateMineSimulator`, `EnhancedClaudeAgent`,
`MineEmergencySystem`).  Machine floats are modelled as rationals;
calls to `random.uniform` / `random.random` / `math.sin(time ...)`
become explicit draw parameters, constrained where a property needs
their documented ranges.  Python `dict`s walked in insertion order
become association lists.
-/

namespace MineSys

/-- `SensorStatus` enum (mine_core_system.py lines 27-31). -/
inductive SensorStatus where
  | normal
  | warning
  | critical
  | offline
deriving DecidableEq, Repr

/-- Static per-sensor configuration record: one value of the inner dicts of
`sensors_config` (lines 228-276).  `normal_range` is split into
`range_lo`/`range_hi`.  Every entry of the source dict carries a
`critical_threshold` key, so the `config.get("critical_threshold", max_val*1.5)`
default (line 372, 523) is dead and the field is total here. -/
structure SensorConfig where
  stype : String
  zone : String
  location : String
  range_lo : ℚ
  range_hi : ℚ
  unit : String
  critical_threshold : ℚ
deriving DecidableEq, Repr

/-- The 16-sensor configuration `self.sensors_config` (lines 228-276),
as an association list in the source's insertion order. -/
def sensors_config : List (String × SensorConfig) :=
  [ ("dust_extr_01", ⟨"dust", "Zone 1", "Fosse_Nord", 15, 45, "mg/m³", 100⟩),
    ("dust_extr_02", ⟨"dust", "Zone 1", "Fosse_Sud", 20, 50, "mg/m³", 100⟩),
    ("dust_trait_01", ⟨"dust", "Zone 2", "Broyeur_Primaire", 30, 70, "mg/m³", 120⟩),
    ("dust_trait_02", ⟨"dust", "Zone 2", "Broyeur_Secondaire", 25, 65, "mg/m³", 120⟩),
    ("vibration_br_01", ⟨"vibration", "Zone 2", "Broyeur_Boulets", 3/2, 9/2, "mm/s", 7⟩),
    ("vibration_br_02", ⟨"vibration", "Zone 2", "Concasseur", 1, 7/2, "mm/s", 6⟩),
    ("gas_nh3_01", ⟨"ammonia", "Zone 3", "Réacteur_1", 2, 15, "ppm", 50⟩),
    ("gas_so2_01", ⟨"sulfur_dioxide", "Zone 3", "Acidulation", 1, 8, "ppm", 20⟩),
    ("gas_hf_01", ⟨"hydrogen_fluoride", "Zone 3", "Attaque_Acide", 1/2, 3, "ppm", 10⟩),
    ("ph_bassin_01", ⟨"ph", "Zone 3", "Bassin_Neutralisation", 13/2, 17/2, "pH", 5⟩),
    ("temp_four_01", ⟨"temperature", "Zone 4", "Four_Séchage", 80, 150, "°C", 200⟩),
    ("pressure_pipe_01", ⟨"pressure", "Zone 4", "Pipeline_Principal", 5/2, 11/2, "bar", 8⟩),
    ("level_bassin_01", ⟨"level", "Zone 4", "Bassin_Décantation", 3, 15/2, "m", 9⟩),
    ("air_quality_01", ⟨"air_quality", "Zone 5", "Station_Météo", 50, 150, "AQI", 300⟩),
    ("radiation_01", ⟨"radiation", "Zone 6", "Zone_Stockage", 1/10, 3/10, "μSv/h", 1⟩),
    ("water_flow_01", ⟨"flow", "Zone 6", "Circuit_Eau", 150, 300, "m³/h", 50⟩),
    ("turbidity_01", ⟨"turbidity", "environnement", "Effluent_Sortie", 5, 25, "NTU", 100⟩) ]

/-- `WeatherCondition` dataclass (lines 60-68). -/
structure Weather where
  temperature : ℚ
  humidity : ℚ
  wind_speed : ℚ
  wind_direction : ℚ
  pressure : ℚ
  visibility : ℚ
  precipitation : ℚ
deriving DecidableEq, Repr

/-- Initial weather `WeatherCondition(25, 65, 3.2, 180, 1013, 10, 0)` (line 224). -/
def initial_weather : Weather := ⟨25, 65, 16/5, 180, 1013, 10, 0⟩

/-- `ProductionMetrics` dataclass (lines 81-88). -/
structure Production where
  hourly_production : ℚ
  quality_grade : ℚ
  energy_consumption : ℚ
  water_usage : ℚ
  waste_generated : ℚ
  efficiency_rate : ℚ
deriving DecidableEq, Repr

/-- Initial production `ProductionMetrics(150, 28.5, 2400, 45, 12, 0.85)` (line 225). -/
def initial_production : Production := ⟨150, 57/2, 2400, 45, 12, 17/20⟩

/-- One value of the `self.active_anomalies` dict as filled by
`trigger_anomaly` (lines 546-551): type, duration (cycles), severity,
start time.  `datetime.now()` is modelled as a tick count. -/
structure Anomaly where
  atype : String
  duration : ℕ
  severity : String
  start_time : ℕ
deriving DecidableEq, Repr

/-- Mutable simulator state of `AdvancedPhosphateMineSimulator` relevant to the
verified operations: weather, production metrics and the active-anomaly dict
(association list keyed by anomaly id, insertion-ordered like a Python dict). -/
structure SimState where
  weather : Weather
  production : Production
  active_anomalies : List (String × Anomaly)
deriving DecidableEq, Repr

/-- Simulator state right after `__init__` (lines 223-294): nominal weather and
production, no active anomalies. -/
def initial_state : SimState := ⟨initial_weather, initial_production, []⟩

/-- Python's `round(x, 2)` on the rational idealisation of a float:
round `100*x` to the nearest integer, ties to the even integer
(banker's rounding), then divide by `100`. -/
def pyRound2 (x : ℚ) : ℚ :=
  let y := x * 100
  let f : ℤ := ⌊y⌋
  let r := y - f
  let n : ℤ :=
    if r < 1/2 then f
    else if 1/2 < r then f + 1
    else if f % 2 = 0 then f else f + 1
  (n : ℚ) / 100

/-- The fields of `SensorReading` (lines 33-44) that the verified claims
observe.  `timestamp`/`calibration_date` (wall-clock datetimes) are omitted. -/
structure Reading where
  sensor_id : String
  sensor_type : String
  value : ℚ
  unit : String
  location : String
  zone : String
  status : SensorStatus
  maintenance_due : Bool
deriving DecidableEq, Repr

/-- Per-call random draws of `update_weather` (lines 296-312).
`sin_day` stands for `sin(time.time()/86400*2π)`; the others are the
`random.uniform` draws in source order. -/
structure WeatherDraws where
  sin_day : ℚ
  temp_d : ℚ
  hum_d : ℚ
  wind_d : ℚ
  press_d : ℚ
deriving Repr

/-- `update_weather` (lines 296-312): mutates temperature, humidity,
wind speed and pressure of the weather state (direction, visibility and
precipitation are untouched) and returns the dust factor:
1.0 nominally, 1.5 if the new wind speed exceeds 8, times 1.3 if the new
humidity is below 30. -/
def update_weather (w : Weather) (d : WeatherDraws) : Weather × ℚ :=
  let base_temp := 25 + 10 * d.sin_day
  let temperature := base_temp + d.temp_d
  let humidity := max 20 (min 95 (65 + d.hum_d))
  let wind_speed := max 0 (16/5 + d.wind_d)
  let pressure := 1013 + d.press_d
  let w' := { w with temperature := temperature, humidity := humidity,
                     wind_speed := wind_speed, pressure := pressure }
  let dust_factor : ℚ :=
    (if 8 < wind_speed then 3/2 else 1) * (if humidity < 30 then 13/10 else 1)
  (w', dust_factor)

/-- Per-anomaly multiplier of the loop body of `calculate_production_impact`
(lines 319-323): 0.7 for a `'critical'` severity, 0.9 for `'warning'`,
otherwise the factor is left unchanged. -/
def anomaly_severity_factor (a : Anomaly) : ℚ :=
  if a.severity = "critical" then 7/10
  else if a.severity = "warning" then 9/10
  else 1

/-- `calculate_production_impact` (lines 314-335), the returned impact factor:
starts at 1.0, multiplied per active anomaly by its severity factor, then by
0.8 if wind speed exceeds 12 and by 0.6 if visibility is below 2. -/
def calculate_production_impact (anomalies : List (String × Anomaly)) (w : Weather) : ℚ :=
  let f := anomalies.foldl (fun acc kv => acc * anomaly_severity_factor kv.2) 1
  let f := if 12 < w.wind_speed then f * (8/10) else f
  let f := if w.visibility < 2 then f * (6/10) else f
  f

/-- The production-metric writes of `calculate_production_impact`
(lines 332-333): `hourly_production = 150 * impact`,
`efficiency_rate = min(1.0, impact * 0.85)`. -/
def production_after_impact (impact : ℚ) (p : Production) : Production :=
  { p with hourly_production := 150 * impact,
           efficiency_rate := min 1 (impact * (17/20)) }

/-- Status determination of `_generate_optimized_reading` (lines 521-526):
CRITICAL when `value >= critical_threshold`, else WARNING when
`value >= max_val * 0.85`, else NORMAL. -/
def optimized_status (value : ℚ) (cfg : SensorConfig) : SensorStatus :=
  if cfg.critical_threshold ≤ value then SensorStatus.critical
  else if cfg.range_hi * (85/100) ≤ value then SensorStatus.warning
  else SensorStatus.normal

/-- Status determination of `generate_realistic_reading` (lines 370-383):
the same threshold comparison as `_generate_optimized_reading`, then the rare
sensor-fault draw (`random.random() < 0.001`) overrides the status to OFFLINE.
`offline_draw` is the outcome of that draw. -/
def realistic_status (value : ℚ) (cfg : SensorConfig) (offline_draw : Bool) : SensorStatus :=
  let critical_threshold := cfg.critical_threshold
  let warning_threshold := cfg.range_hi * (85/100)
  let status :=
    if critical_threshold ≤ value then SensorStatus.critical
    else if warning_threshold ≤ value then SensorStatus.warning
    else SensorStatus.normal
  if offline_draw then SensorStatus.offline else status

/-- `_generate_optimized_reading` (lines 501-539): the value is the base
uniform draw times the type-dependent factor times the time factor, floored at
0; the status is compared against the unrounded value; the stored value is
rounded to two decimals. -/
def generate_optimized_reading (sensor_id : String) (cfg : SensorConfig)
    (weather_factor production_factor time_factor base : ℚ) : Reading :=
  let value :=
    if cfg.stype = "dust" then base * weather_factor * time_factor
    else if cfg.stype = "vibration" ∨ cfg.stype = "noise" then
      base * production_factor * time_factor
    else base * time_factor
  let value := max 0 value
  { sensor_id := sensor_id
    sensor_type := cfg.stype
    value := pyRound2 value
    unit := cfg.unit
    location := cfg.location
    zone := cfg.zone
    status := optimized_status value cfg
    maintenance_due := false }

/-- Random draws of one `get_all_sensor_readings` call: the weather draws, the
value of `sin(time.time()/3600*2π)` shared by every per-sensor time factor,
and the per-sensor `random.uniform(min_val, max_val)` base draw. -/
structure ReadingDraws where
  wd : WeatherDraws
  sin_hour : ℚ
  base : String → ℚ

/-- `trigger_anomaly` (lines 543-552): inserts a new entry into
`active_anomalies` under the key `f"{anomaly_type}_{int(time.time())}"`,
where `t` models `int(time.time())`. -/
def trigger_anomaly (s : SimState) (anomaly_type : String) (duration : ℕ)
    (severity : String) (t : ℕ) : SimState :=
  { s with active_anomalies :=
      s.active_anomalies ++
        [(anomaly_type ++ "_" ++ toString t,
          ⟨anomaly_type, duration, severity, t⟩)] }

/-- `get_all_sensor_readings` (lines 484-499): updates the weather once,
computes the production impact once (which also rewrites the production
metrics), then per configured sensor either dispatches to
`self._generate_anomaly_reading` — a method that is defined nowhere in the
class, so reaching that branch raises `AttributeError`, modelled as
`Except.error` — when the sensor id is a key of `active_anomalies`, or builds
an optimized reading. -/
def get_all_sensor_readings (s : SimState) (d : ReadingDraws) :
    Except String (List (String × Reading)) × SimState :=
  let wres := update_weather s.weather d.wd
  let w' := wres.1
  let weather_factor := wres.2
  let production_factor := calculate_production_impact s.active_anomalies w'
  let p' := production_after_impact production_factor s.production
  let time_factor := 1 + (2/10) * d.sin_hour
  let readings :=
    sensors_config.mapM (fun p =>
      if s.active_anomalies.any (fun kv => kv.1 == p.1) then
        Except.error "AttributeError: _generate_anomaly_reading is not defined"
      else
        Except.ok (p.1,
          generate_optimized_reading p.1 p.2 weather_factor production_factor
            time_factor (d.base p.1)))
  (readings, { s with weather := w', production := p' })

/-- One iteration of the monitoring loop's effect on the simulator state
(`start_advanced_monitoring`, lines 1187-1246, through its
`get_all_sensor_readings` call): nothing in the loop ever removes an entry
from `active_anomalies`. -/
def monitoring_cycle (s : SimState) (d : ReadingDraws) : SimState :=
  (get_all_sensor_readings s d).2

/-- Runs the monitoring loop for one cycle per element of `ds`. -/
def run_cycles (s : SimState) (ds : List ReadingDraws) : SimState :=
  ds.foldl monitoring_cycle s

/-- One `append` to a Python `deque(maxlen=n)`: when the deque is full the
oldest (leftmost) element is evicted.  Models `self.alerts_queue`
(`deque(maxlen=50)`, line 1175) and `self.context_memory`
(`deque(maxlen=20)`, line 676). -/
def boundedAppend (maxlen : ℕ) (q : List α) (x : α) : List α :=
  if q.length < maxlen then q ++ [x] else q.drop 1 ++ [x]

/-- The alert buffer contents after a sequence of appends starting from the
empty `deque(maxlen=maxlen)`. -/
def alertsAfter (maxlen : ℕ) (xs : List α) : List α :=
  xs.foldl (boundedAppend maxlen) []

/-- The `quality_factors` dict of `_calculate_data_quality` (lines 910-915).
All four enum members are keys, so the `.get(status, 0.5)` default is dead. -/
def quality_factor : SensorStatus → ℚ
  | SensorStatus.normal => 1
  | SensorStatus.warning => 8/10
  | SensorStatus.critical => 6/10
  | SensorStatus.offline => 0

/-- `_calculate_data_quality` (lines 904-922): 0.0 on an empty readings map;
otherwise the mean status-quality minus 0.1 per maintenance-due sensor divided
by the sensor count, clamped into [0,1] by `max(0.0, min(1.0, ...))`. -/
def calculate_data_quality (readings : List (String × Reading)) : ℚ :=
  let total_sensors := readings.length
  if total_sensors = 0 then 0
  else
    let total_quality :=
      readings.foldl (fun acc kv => acc + quality_factor kv.2.status) 0
    let maintenance_penalty :=
      readings.foldl (fun acc kv => acc + if kv.2.maintenance_due then (1/10 : ℚ) else 0) 0
    max 0 (min 1 (total_quality / total_sensors - maintenance_penalty / total_sensors))

/-- `risk_assessment` block of an analysis result.  The fallback dict built in
the `except` branch of `analyze_comprehensive_data` (line 819) carries exactly
a level and a confidence score. -/
structure RiskAssessment where
  current_level : String
  confidence_score : ℚ
deriving DecidableEq, Repr

/-- A successfully parsed collaborator response: the JSON payload of
`analyze_comprehensive_data` as far as the verified claims observe it. -/
structure ParsedAnalysis where
  risk_assessment : RiskAssessment
deriving DecidableEq, Repr

/-- The dict returned by `analyze_comprehensive_data`: the risk assessment,
the `"error"` key (present only on the fallback path, line 820), and the
`"data_quality_score"` enrichment (present only on the success path,
line 802). -/
structure AnalysisOutput where
  risk_assessment : RiskAssessment
  error : Option String
  data_quality_score : Option ℚ
deriving DecidableEq, Repr

/-- One entry of `self.context_memory` (lines 806-812) as far as the claims
observe it (the full Python dict also carries timestamps and snapshots). -/
structure ContextEntry where
  analysis_level : String
deriving DecidableEq, Repr

/-- The `try` block of `analyze_comprehensive_data` up to `json.loads`
(lines 789-798): the awaited collaborator call either raises (`.error`) or
returns response text, which `json.loads`-style parsing (`parse`) either
rejects (raising, `.error`) or turns into a structured analysis. -/
def collab_then_parse (parse : String → Except String ParsedAnalysis)
    (collab : Except String String) : Except String ParsedAnalysis :=
  match collab with
  | Except.error e => Except.error e
  | Except.ok txt => parse txt

/-- `analyze_comprehensive_data` (lines 680-821).  On success the parsed
analysis is enriched with the data-quality score and appended to the bounded
context memory; on any exception (collaborator call or JSON parse) the
`except` branch returns the degraded assessment
`{"risk_assessment": {"current_level": "UNKNOWN", "confidence_score": 0.0},
"error": str(e)}` and the context memory is left untouched. -/
def analyze_comprehensive_data (parse : String → Except String ParsedAnalysis)
    (collab : Except String String) (readings : List (String × Reading))
    (context_memory : List ContextEntry) : AnalysisOutput × List ContextEntry :=
  match collab_then_parse parse collab with
  | Except.ok a =>
      ({ risk_assessment := a.risk_assessment
         error := none
         data_quality_score := some (calculate_data_quality readings) },
       boundedAppend 20 context_memory ⟨a.risk_assessment.current_level⟩)
  | Except.error e =>
      ({ risk_assessment := { current_level := "UNKNOWN", confidence_score := 0 }
         error := some e
         data_quality_score := none },
       context_memory)

/-- One adapted action step: the dict built by `_adapt_protocol_to_context`
(lines 1074-1080) and consumed by the execution loop and the cost estimator.
Every key is always set by the adapter, so the `.get(..., default)` reads of
the consumers are modelled as plain fields. -/
structure ActionDetail where
  action : String
  estimated_time : ℚ
  personnel_needed : ℕ
  equipment : List String
  success_probability : ℚ
  contingency : Option String
deriving DecidableEq, Repr

/-- One entry of the execution log: either a numbered step outcome
(lines 1008-1016) or a contingency entry (`_execute_contingency`,
lines 1120-1127, always `"completed"` with `execution_time` 15). -/
inductive LogEntry where
  | step (idx : ℕ) (action : String) (completed : Bool) (execution_time : ℚ)
      (personnel_assigned : ℕ) (equipment_used : List String)
  | contingency (action : String)
deriving DecidableEq, Repr

/-- Whether a log entry's `"status"` field is `"completed"`. -/
def LogEntry.isCompleted : LogEntry → Bool
  | LogEntry.step _ _ completed _ _ _ => completed
  | LogEntry.contingency _ => true

/-- The step-execution loop of `execute_advanced_protocol` (lines 1000-1027):
each step draws `random.random()` (the stream `draws`, indexed by step), is
logged as completed when the draw is below its success probability, and on
failure its contingency (when present) is run and logged immediately after. -/
def execute_steps (actions : List ActionDetail) (draws : ℕ → ℚ) : List LogEntry :=
  go actions 0
where
  go : List ActionDetail → ℕ → List LogEntry
    | [], _ => []
    | a :: rest, i =>
        let success : Bool := decide (draws i < a.success_probability)
        let entry := LogEntry.step (i + 1) a.action success a.estimated_time
          a.personnel_needed a.equipment
        let cont :=
          if success then []
          else
            match a.contingency with
            | some c => [LogEntry.contingency c]
            | none => []
        entry :: (cont ++ go rest (i + 1))

/-- `success_rate` of an execution log (line 1040): completed entries divided
by the log length. -/
def protocol_success_rate (log : List LogEntry) : ℚ :=
  ((log.countP LogEntry.isCompleted : ℕ) : ℚ) / ((log.length : ℕ) : ℚ)

/-- The dict returned by `_estimate_intervention_cost`. -/
structure CostEstimate where
  personnel_cost_eur : ℚ
  equipment_cost_eur : ℚ
  total_estimated_eur : ℚ
  production_loss_eur : ℚ
deriving DecidableEq, Repr

/-- `_estimate_intervention_cost` (lines 1134-1144):
`sum(personnel_needed * estimated_time) * 0.5`,
`len([e for a in actions for e in a.equipment]) * 500`,
their sum, and `1500 * sum(estimated_time) / 60`. -/
def estimate_intervention_cost (actions : List ActionDetail) : CostEstimate :=
  let personnel_cost :=
    (actions.foldl (fun acc a => acc + (a.personnel_needed : ℚ) * a.estimated_time) 0) * (1/2)
  let equipment_cost :=
    (((actions.map (fun a => a.equipment)).flatten.length : ℕ) : ℚ) * 500
  { personnel_cost_eur := personnel_cost
    equipment_cost_eur := equipment_cost
    total_estimated_eur := personnel_cost + equipment_cost
    production_loss_eur :=
      1500 * (actions.foldl (fun acc a => acc + a.estimated_time) 0) / 60 }

/-- `EmergencyProtocol` dataclass (lines 117-127). -/
structure EmergencyProtocol where
  protocol_id : String
  name : String
  description : String
  priority : ℕ
  estimated_time : ℕ
  required_actions : List String
  affected_zones : List String
  personnel_required : ℕ
  equipment_needed : List String
deriving DecidableEq, Repr

/-- The `self.emergency_protocols` catalog (lines 597-674), keyed as in the
source dict. -/
def emergency_protocols : List (String × EmergencyProtocol) :=
  [ ("dust_storm_emergency",
     { protocol_id := "DUST_STORM_001"
       name := "Protocole Tempête de Poussière"
       description := "Intervention d'urgence pour tempête de poussière avec risque explosion"
       priority := 1
       estimated_time := 450
       required_actions :=
         [ "Arrêt immédiat de tous les équipements électriques non-essentiels",
           "Activation du système de brumisation d'urgence",
           "Confinement du personnel dans les abris pressurisés",
           "Surveillance continue des concentrations de poussière",
           "Activation des équipes de décontamination",
           "Communication avec les autorités environnementales" ]
       affected_zones := ["extraction", "traitement", "stockage"]
       personnel_required := 25
       equipment_needed := ["Systèmes de brumisation", "Respirateurs P3", "Détecteurs portables"] }),
    ("chemical_cascade_emergency",
     { protocol_id := "CHEM_CASCADE_001"
       name := "Protocole Cascade Chimique"
       description := "Intervention pour fuite chimique avec effet domino"
       priority := 1
       estimated_time := 600
       required_actions :=
         [ "Isolation immédiate des sources de fuite",
           "Évacuation dirigée selon la rose des vents",
           "Activation du centre de décontamination mobile",
           "Neutralisation chimique d'urgence",
           "Surveillance médicale du personnel exposé",
           "Alerte aux services de santé externes",
           "Confinement des effluents contaminés" ]
       affected_zones := ["chimique", "traitement", "environnement"]
       personnel_required := 15
       equipment_needed := ["Combinaisons étanches", "Neutralisants chimiques", "Ambulance"] }),
    ("equipment_cascade_failure",
     { protocol_id := "EQUIP_CASCADE_001"
       name := "Protocole Panne en Cascade"
       description := "Intervention pour pannes d'équipements en chaîne"
       priority := 2
       estimated_time := 300
       required_actions :=
         [ "Arrêt contrôlé de la chaîne de production",
           "Isolation des équipements défaillants",
           "Inspection structurelle d'urgence",
           "Mise en sécurité des installations sous pression",
           "Activation des systèmes de backup",
           "Évaluation des risques de propagation" ]
       affected_zones := ["traitement", "transport"]
       personnel_required := 12
       equipment_needed := ["Outils de diagnostic", "Équipements de levage", "Pièces de rechange"] }),
    ("environmental_contamination",
     { protocol_id := "ENV_CONTAM_001"
       name := "Protocole Contamination Environnementale"
       description := "Intervention pour contamination de l'environnement"
       priority := 2
       estimated_time := 720
       required_actions :=
         [ "Arrêt des rejets à la source",
           "Confinement de la zone contaminée",
           "Prélèvements d'urgence eau/sol/air",
           "Notification aux autorités environnementales",
           "Activation du plan de dépollution",
           "Surveillance sanitaire de la population locale" ]
       affected_zones := ["environnement", "chimique"]
       personnel_required := 8
       equipment_needed := ["Kits de prélèvement", "Barrières étanches", "Laboratoire mobile"] }) ]

/-- Python `str.lower()` restricted to the characters occurring in the
protocol catalog: ASCII letters plus the accented capitals used there. -/
def py_lower_char (c : Char) : Char :=
  if c = 'É' then 'é'
  else if c = 'È' then 'è'
  else if c = 'Ê' then 'ê'
  else if c = 'À' then 'à'
  else if c = 'Â' then 'â'
  else if c = 'Ç' then 'ç'
  else if c = 'Ô' then 'ô'
  else if c = 'Û' then 'û'
  else c.toLower

/-- Python `str.lower()` over a whole string (see `py_lower_char`). -/
def py_lower (s : String) : String := String.mk (s.data.map py_lower_char)

/-- Python's `needle in hay` substring test. -/
def str_contains (hay needle : String) : Bool :=
  (List.range (hay.data.length + 1)).any
    (fun i => needle.data.isPrefixOf (hay.data.drop i))

/-- The slice of the `context_data` dict (built at lines 1202-1207) read by
`_adapt_protocol_to_context`: `weather["wind_speed"]`, per-zone
`["personnel"]["personnel_count"]`, per-sensor `["status"]` strings, and the
`affected_zones` list (`context.get("affected_zones", [])`). -/
structure Context where
  weather_wind_speed : ℚ
  zone_personnel : List (String × ℕ)
  sensor_status : List (String × String)
  affected_zones : List String

/-- The per-action body of `_adapt_protocol_to_context` (lines 1073-1114):
nominal step, then the évacuation / ventilation / isolation contextual rules,
then the contingency annotation when the success probability is below 0.9
(never the case, as the probability is always 0.95). -/
def adapt_action (ctx : Context) (action : String) : ActionDetail :=
  let base : ActionDetail :=
    { action := action, estimated_time := 30, personnel_needed := 2,
      equipment := [], success_probability := 19/20, contingency := none }
  let d :=
    if str_contains (py_lower action) "évacuation" then
      let d :=
        if 10 < ctx.weather_wind_speed then
          { base with action := action ++ " (route adaptée vent fort)",
                      estimated_time := 45 }
        else base
      let personnel_count :=
        (ctx.affected_zones.map
          (fun z => ((ctx.zone_personnel.lookup z).getD 0))).sum
      { d with personnel_needed := max 3 (personnel_count / 4) }
    else if str_contains (py_lower action) "ventilation" then
      if ctx.weather_wind_speed < 2 then
        { base with action := action ++ " (ventilation forcée nécessaire)",
                    estimated_time := 60,
                    equipment := base.equipment ++ ["Ventilateurs industriels"] }
      else base
    else if str_contains (py_lower action) "isolation" then
      let critical_sensors := ctx.sensor_status.filter (fun p => p.2 == "critical")
      if 3 < critical_sensors.length then
        { base with action := action ++ " (isolation multiple nécessaire)",
                    estimated_time := 90, personnel_needed := 4 }
      else base
    else base
  if d.success_probability < 9/10 then
    { d with contingency := some ("Plan B pour: " ++ action) }
  else d

/-- `_adapt_protocol_to_context` (lines 1064-1116). -/
def adapt_protocol_to_context (p : EmergencyProtocol) (ctx : Context) :
    List ActionDetail :=
  p.required_actions.map (adapt_action ctx)

/-- One entry of `self.active_protocols` / the learning lists (the
`intervention_record` dict of lines 1033-1041, minus wall-clock fields). -/
structure InterventionRecord where
  protocol_id : String
  execution_log : List LogEntry
  success_rate : ℚ
deriving DecidableEq, Repr

/-- Mutable state of `EnhancedClaudeAgent` (lines 676-678):
`context_memory`, `active_protocols`, and the two learning lists. -/
structure AgentState where
  context_memory : List ContextEntry
  active_protocols : List InterventionRecord
  successful_interventions : List InterventionRecord
  false_alarms : List InterventionRecord

/-- The dict returned by `execute_advanced_protocol`: the unknown-protocol /
exception branches return an `"error"` dict, the normal branch the summary of
lines 1049-1058. -/
inductive ProtocolResult where
  | error (msg : String)
  | ok (protocol_executed : String) (total_actions : ℕ) (success_rate : ℚ)
      (execution_log : List LogEntry) (adaptations_made : ℕ)
      (personnel_mobilized : ℕ) (estimated_cost : CostEstimate)

/-- `execute_advanced_protocol` (lines 985-1062).  An unknown protocol name
returns `{"error": f"Protocole {name} non trouvé"}` before anything runs.
Otherwise the protocol is adapted, every step is executed, and the summary is
returned while the intervention record is appended to `active_protocols` (and
to the successful-interventions learning set when the rate exceeds 0.8).  An
empty log makes the `success_rate` division raise `ZeroDivisionError`, caught
by the `except` branch which returns an error dict without recording anything
(dead for the shipped catalog, whose action lists are non-empty).
`adaptations_made` counts actions holding an `"adapted"` key, which
`_adapt_protocol_to_context` never sets, so it is 0. -/
def execute_advanced_protocol (st : AgentState) (protocol_name : String)
    (ctx : Context) (draws : ℕ → ℚ) : ProtocolResult × AgentState :=
  match emergency_protocols.lookup protocol_name with
  | none => (ProtocolResult.error ("Protocole " ++ protocol_name ++ " non trouvé"), st)
  | some protocol =>
      let adapted_actions := adapt_protocol_to_context protocol ctx
      let log := execute_steps adapted_actions draws
      if log.length = 0 then
        (ProtocolResult.error "division by zero", st)
      else
        let rate := protocol_success_rate log
        let record : InterventionRecord := ⟨protocol.protocol_id, log, rate⟩
        let st' :=
          { st with
            active_protocols := st.active_protocols ++ [record]
            successful_interventions :=
              if 4/5 < rate then st.successful_interventions ++ [record]
              else st.successful_interventions }
        (ProtocolResult.ok protocol_name adapted_actions.length rate log 0
          (adapted_actions.foldl (fun acc a => acc + a.personnel_needed) 0)
          (estimate_intervention_cost adapted_actions), st')

/-! Concrete evaluation inputs used by witness theorems. -/

/-- A parser that rejects every response, as `json.loads` does on non-JSON. -/
def reject_parse : String → Except String ParsedAnalysis :=
  fun _ => Except.error "Expecting value: line 1 column 1 (char 0)"

/-- A one-step plan whose single step has success probability 1. -/
def sure_plan : List ActionDetail :=
  [{ action := "Arrêt contrôlé de la chaîne de production", estimated_time := 30,
     personnel_needed := 2, equipment := [], success_probability := 1,
     contingency := none }]

/-- A fixed stream of `random.random()` outcomes. -/
def half_draws : ℕ → ℚ := fun _ => 1/2

/-- An adapted step carrying one equipment item, as the ventilation rule
produces. -/
def vent_step : ActionDetail :=
  { action := "Activation du système de brumisation d'urgence",
    estimated_time := 60, personnel_needed := 2,
    equipment := ["Ventilateurs industriels"], success_probability := 19/20,
    contingency := none }

/-- A critical dust-storm anomaly as `trigger_anomaly` records it. -/
def storm_anomaly : Anomaly := ⟨"dust_storm_impact", 5, "critical", 0⟩

/-- An agent state with empty history and learning data. -/
def fresh_agent : AgentState := ⟨[], [], [], []⟩

/-- A minimal adaptation context. -/
def empty_context : Context := ⟨0, [], [], []⟩

/-- Benign draws for one `get_all_sensor_readings` call: every uniform draw at
the middle of its range would be fine; zeros and a mid-range dust base are
used. -/
def calm_draws : ReadingDraws := ⟨⟨0, 0, 0, 0, 0⟩, 0, fun _ => 20⟩

/-- The anomaly id `trigger_anomaly` generates for a dust storm triggered at
integer time `t`. -/
def storm_key (t : ℕ) : String := "dust_storm_impact_" ++ toString t

/-- The simulator state right after
`trigger_anomaly("dust_storm_impact", 5, "critical")` on a fresh simulator. -/
def storm_state (t : ℕ) : SimState :=
  trigger_anomaly initial_state "dust_storm_impact" 5 "critical" t

/-! ## Theorems -/

/-- C1: in the nominal generation paths (`generate_realistic_reading` with the
fault-injection draw not firing, and `_generate_optimized_reading`), the
status is CRITICAL iff the value reaches the configured critical threshold,
WARNING iff the value is at least 0.85 times the top of the normal range but
below the critical threshold, and NORMAL otherwise; both paths assign statuses
identically. -/
theorem status_is_pure_threshold_function (v : ℚ) (cfg : SensorConfig) :
    realistic_status v cfg false = optimized_status v cfg ∧
    (optimized_status v cfg = SensorStatus.critical ↔ cfg.critical_threshold ≤ v) ∧
    (optimized_status v cfg = SensorStatus.warning ↔
      cfg.range_hi * (85/100) ≤ v ∧ v < cfg.critical_threshold) ∧
    (optimized_status v cfg = SensorStatus.normal ↔
      v < cfg.critical_threshold ∧ v < cfg.range_hi * (85/100)) := by
  refine ⟨rfl, ?_, ?_, ?_⟩ <;>
    · unfold optimized_status
      split_ifs with h1 h2 <;> simp_all

/-- C10: the data-quality score is total, equals 0 on an empty readings map
(no division by zero occurs), and always lies in [0,1]. -/
theorem data_quality_total_and_clamped :
    (∀ readings, 0 ≤ calculate_data_quality readings ∧
      calculate_data_quality readings ≤ 1) ∧
    calculate_data_quality [] = 0 := by
  refine ⟨fun readings => ?_, rfl⟩
  unfold calculate_data_quality
  dsimp only
  split_ifs with h
  · norm_num
  · exact ⟨le_max_left 0 _, max_le (by norm_num) (min_le_left _ _)⟩

/-- Appending to a non-full bounded deque grows it by one, appending to a full
one keeps its length: the capacity is never exceeded. -/
theorem boundedAppend_length_le {α : Type} (m : ℕ) (q : List α) (x : α)
    (h : q.length ≤ m) (hm : 0 < m) : (boundedAppend m q x).length ≤ m := by
  unfold boundedAppend
  split_ifs with hlt <;> simp [List.length_drop] <;> omega

theorem alerts_foldl_length_le {α : Type} (m : ℕ) (hm : 0 < m) :
    ∀ (xs q : List α), q.length ≤ m →
      (xs.foldl (boundedAppend m) q).length ≤ m := by
  intro xs
  induction xs with
  | nil => intro q h; simpa using h
  | cons x xs ih =>
      intro q h
      exact ih _ (boundedAppend_length_le m q x h hm)

theorem boundedAppend_suffix {α : Type} (m : ℕ) (q ys : List α) (x : α)
    (h : q <:+ ys) : boundedAppend m q x <:+ ys ++ [x] := by
  unfold boundedAppend
  obtain ⟨t, rfl⟩ := h
  split_ifs with hlt
  · exact ⟨t, (List.append_assoc t q [x]).symm⟩
  · have hdrop : q.drop 1 <:+ q := List.drop_suffix 1 q
    obtain ⟨u, hu⟩ := hdrop
    refine ⟨t ++ u, ?_⟩
    have hstep : (t ++ u) ++ (q.drop 1 ++ [x]) = t ++ ((u ++ q.drop 1) ++ [x]) := by
      simp [List.append_assoc]
    rw [hstep, hu]
    simp [List.append_assoc]

theorem alerts_foldl_suffix {α : Type} (m : ℕ) :
    ∀ (xs q ys : List α), q <:+ ys →
      (xs.foldl (boundedAppend m) q) <:+ ys ++ xs := by
  intro xs
  induction xs with
  | nil => intro q ys h; simpa using h
  | cons x xs ih =>
      intro q ys h
      have := ih (boundedAppend m q x) (ys ++ [x]) (boundedAppend_suffix m q ys x h)
      simpa [List.append_assoc] using this

set_option maxRecDepth 20000 in
/-- C2: for every append sequence the alert buffer (capacity 50) never
exceeds 50 entries and is always a suffix of the appended sequence, so the
surviving alerts keep their relative insertion order; after 51 appends of
distinct alerts 0..50 the buffer holds exactly 1..50 — the first-inserted
alert is gone and the newest is present. -/
theorem alert_buffer_bounded_and_ordered :
    (∀ xs : List ℕ, (alertsAfter 50 xs).length ≤ 50 ∧ alertsAfter 50 xs <:+ xs) ∧
    alertsAfter 50 (List.range 51) = List.range' 1 50 ∧
    0 ∉ alertsAfter 50 (List.range 51) ∧
    50 ∈ alertsAfter 50 (List.range 51) := by
  refine ⟨fun xs => ⟨?_, ?_⟩, ?_, ?_, ?_⟩
  · exact alerts_foldl_length_le 50 (by norm_num) xs [] (by simp)
  · simpa using alerts_foldl_suffix 50 xs [] [] List.suffix_rfl
  · decide
  · decide
  · decide

/-- C3: whenever the collaborator call raises or its response fails to parse,
`analyze_comprehensive_data` returns (instead of propagating) the degraded
assessment with level `"UNKNOWN"` and confidence 0, records the failure text
in the `"error"` field, and leaves the context memory untouched. -/
theorem degraded_analysis_on_collaborator_failure
    (parse : String → Except String ParsedAnalysis)
    (collab : Except String String) (readings : List (String × Reading))
    (mem : List ContextEntry) (e : String)
    (h : collab_then_parse parse collab = Except.error e) :
    analyze_comprehensive_data parse collab readings mem =
      ({ risk_assessment := { current_level := "UNKNOWN", confidence_score := 0 },
         error := some e, data_quality_score := none }, mem) := by
  unfold analyze_comprehensive_data
  rw [h]

theorem degraded_analysis_on_collaborator_failure_witness :
    collab_then_parse reject_parse (Except.ok "not json") =
      Except.error "Expecting value: line 1 column 1 (char 0)" ∧
    analyze_comprehensive_data reject_parse (Except.ok "not json") [] [] =
      ({ risk_assessment := { current_level := "UNKNOWN", confidence_score := 0 },
         error := some "Expecting value: line 1 column 1 (char 0)",
         data_quality_score := none }, []) :=
  ⟨rfl, degraded_analysis_on_collaborator_failure reject_parse
    (Except.ok "not json") [] [] "Expecting value: line 1 column 1 (char 0)" rfl⟩

theorem foldl_add_map {α : Type} (f : α → ℚ) :
    ∀ (l : List α) (c : ℚ),
      l.foldl (fun acc a => acc + f a) c = c + (l.map f).sum := by
  intro l
  induction l with
  | nil => intro c; simp
  | cons x xs ih => intro c; simp [ih, add_assoc]

/-- C7 counterexample: on a plan whose two steps each carry the same equipment
item, the code's equipment cost is 2 × 500 €, not (distinct count) × 500 €. -/
theorem equipment_cost_not_distinct_counterexample :
    (estimate_intervention_cost [vent_step, vent_step]).equipment_cost_eur ≠
      ((([vent_step, vent_step].map (fun a => a.equipment)).flatten.dedup.length : ℕ) : ℚ)
        * 500 := by
  norm_num [estimate_intervention_cost, vent_step, List.dedup]

/-- C7 (amended): personnel cost is Σ(personnel × time) × 0.5 €, equipment
cost is the total number of equipment entries across steps — counted with
multiplicity, not deduplicated — × 500 €, production-loss cost is
Σ(time) × 1500 € / 60; the three are reported as separate fields, with the
total netting only personnel and equipment. -/
theorem intervention_cost_breakdown (actions : List ActionDetail) :
    (estimate_intervention_cost actions).personnel_cost_eur =
      ((actions.map (fun a => (a.personnel_needed : ℚ) * a.estimated_time)).sum) * (1/2) ∧
    (estimate_intervention_cost actions).equipment_cost_eur =
      (((actions.map (fun a => a.equipment.length)).sum : ℕ) : ℚ) * 500 ∧
    (estimate_intervention_cost actions).production_loss_eur =
      1500 * ((actions.map (fun a => a.estimated_time)).sum) / 60 ∧
    (estimate_intervention_cost actions).total_estimated_eur =
      (estimate_intervention_cost actions).personnel_cost_eur +
        (estimate_intervention_cost actions).equipment_cost_eur := by
  unfold estimate_intervention_cost
  refine ⟨?_, ?_, ?_, rfl⟩
  · rw [foldl_add_map]; ring
  · have h : ((actions.map (fun a => a.equipment)).flatten.length : ℕ) =
        (actions.map (fun a => a.equipment.length)).sum := by
      simp [List.length_flatten, List.map_map, Function.comp_def]
    rw [h]
  · rw [foldl_add_map (fun a : ActionDetail => a.estimated_time)]; ring

theorem execute_steps_go_all_success (draws : ℕ → ℚ) (hd : ∀ n, draws n < 1) :
    ∀ (actions : List ActionDetail) (i : ℕ),
      (∀ a ∈ actions, a.success_probability = 1) →
      (execute_steps.go draws actions i).length = actions.length ∧
      (execute_steps.go draws actions i).countP LogEntry.isCompleted =
        actions.length ∧
      ∀ e ∈ execute_steps.go draws actions i, e.isCompleted = true := by
  intro actions
  induction actions with
  | nil => intro i _; simp [execute_steps.go]
  | cons a rest ih =>
      intro i hp
      have ha : a.success_probability = 1 := hp a (List.mem_cons_self a rest)
      have hsucc : (decide (draws i < a.success_probability)) = true := by
        rw [ha]; exact decide_eq_true (hd i)
      have hrest := ih (i + 1) (fun b hb => hp b (List.mem_cons_of_mem a hb))
      unfold execute_steps.go
      simp only [hsucc, if_pos, List.nil_append]
      refine ⟨by simp [hrest.1], ?_, ?_⟩
      · rw [List.countP_cons]
        simp [LogEntry.isCompleted, hrest.2.1]
      · intro e he
        rcases List.mem_cons.mp he with h | h
        · rw [h]; rfl
        · exact hrest.2.2 e h

/-- C6: on a non-empty adapted plan whose every step has success
probability 1.0, the executor runs all steps (the log has exactly one entry
per step — no contingency entries, no early abort), every entry is completed,
and the aggregate success rate is 1.0. -/
theorem full_success_protocol_execution (actions : List ActionDetail)
    (draws : ℕ → ℚ) (h1 : actions ≠ [])
    (h2 : ∀ a ∈ actions, a.success_probability = 1)
    (h3 : ∀ n, draws n < 1) :
    (execute_steps actions draws).length = actions.length ∧
    protocol_success_rate (execute_steps actions draws) = 1 ∧
    ∀ e ∈ execute_steps actions draws, e.isCompleted = true := by
  obtain ⟨hlen, hcount, hall⟩ := execute_steps_go_all_success draws h3 actions 0 h2
  refine ⟨hlen, ?_, hall⟩
  unfold protocol_success_rate
  rw [show execute_steps actions draws = execute_steps.go draws actions 0 from rfl,
    hcount, hlen]
  have hne : actions.length ≠ 0 := fun h => h1 (List.length_eq_zero.mp h)
  exact div_self (by exact_mod_cast hne)

theorem full_success_protocol_execution_witness :
    (sure_plan ≠ [] ∧ (∀ a ∈ sure_plan, a.success_probability = 1) ∧
      (∀ n, half_draws n < 1)) ∧
    ((execute_steps sure_plan half_draws).length = sure_plan.length ∧
      protocol_success_rate (execute_steps sure_plan half_draws) = 1 ∧
      ∀ e ∈ execute_steps sure_plan half_draws, e.isCompleted = true) :=
  ⟨⟨by decide, by decide, fun n => by norm_num [half_draws]⟩,
   full_success_protocol_execution sure_plan half_draws (by decide) (by decide)
     (fun n => by norm_num [half_draws])⟩

theorem foldl_mul_factor (l : List (String × Anomaly)) (c : ℚ) :
    l.foldl (fun acc kv => acc * anomaly_severity_factor kv.2) c =
      c * (l.map (fun kv => anomaly_severity_factor kv.2)).prod := by
  induction l generalizing c with
  | nil => simp
  | cons x xs ih => simp [ih, mul_assoc]

theorem anomaly_severity_factor_pos (a : Anomaly) :
    0 < anomaly_severity_factor a := by
  unfold anomaly_severity_factor
  split_ifs <;> norm_num

theorem impact_insert (l1 l2 : List (String × Anomaly)) (k : String)
    (a : Anomaly) (w : Weather) :
    calculate_production_impact (l1 ++ (k, a) :: l2) w =
      anomaly_severity_factor a * calculate_production_impact (l1 ++ l2) w := by
  unfold calculate_production_impact
  rw [foldl_mul_factor, foldl_mul_factor]
  simp only [List.map_append, List.map_cons, List.prod_append, List.prod_cons]
  split_ifs <;> ring

theorem impact_nonneg (l : List (String × Anomaly)) (w : Weather) :
    0 ≤ calculate_production_impact l w := by
  unfold calculate_production_impact
  rw [foldl_mul_factor]
  have hp : (0:ℚ) ≤ (l.map (fun kv => anomaly_severity_factor kv.2)).prod := by
    apply List.prod_nonneg
    intro x hx
    obtain ⟨kv, _, rfl⟩ := List.mem_map.mp hx
    exact le_of_lt (anomaly_severity_factor_pos kv.2)
  split_ifs <;> dsimp only <;> nlinarith

/-- C8: with the weather held fixed, adding one anomaly of severity
`"critical"` or `"warning"` anywhere into the active set never increases the
production impact factor. -/
theorem impact_factor_antitone_in_anomalies (l1 l2 : List (String × Anomaly))
    (k : String) (a : Anomaly) (w : Weather)
    (h : a.severity = "critical" ∨ a.severity = "warning") :
    calculate_production_impact (l1 ++ (k, a) :: l2) w ≤
      calculate_production_impact (l1 ++ l2) w := by
  rw [impact_insert]
  have hle : anomaly_severity_factor a ≤ 1 := by
    unfold anomaly_severity_factor
    rcases h with h | h <;> simp [h] <;> norm_num
  exact mul_le_of_le_one_left (impact_nonneg (l1 ++ l2) w) hle

theorem impact_factor_antitone_in_anomalies_witness :
    (storm_anomaly.severity = "critical" ∨ storm_anomaly.severity = "warning") ∧
    calculate_production_impact
        ([] ++ ("dust_storm_impact_0", storm_anomaly) :: []) initial_weather ≤
      calculate_production_impact ([] ++ []) initial_weather :=
  ⟨Or.inl rfl,
   impact_factor_antitone_in_anomalies [] [] "dust_storm_impact_0" storm_anomaly
     initial_weather (Or.inl rfl)⟩

/-- C9: executing a protocol name absent from the emergency-protocol catalog
returns the error dict immediately: no step runs and the agent state —
`active_protocols`, the learning data and the context memory — is returned
unchanged. -/
theorem unknown_protocol_is_a_noop (st : AgentState) (name : String)
    (ctx : Context) (draws : ℕ → ℚ)
    (h : emergency_protocols.lookup name = none) :
    execute_advanced_protocol st name ctx draws =
      (ProtocolResult.error ("Protocole " ++ name ++ " non trouvé"), st) := by
  unfold execute_advanced_protocol
  rw [h]

theorem unknown_protocol_is_a_noop_witness :
    emergency_protocols.lookup "flood_emergency" = none ∧
    execute_advanced_protocol fresh_agent "flood_emergency" empty_context
        half_draws =
      (ProtocolResult.error ("Protocole " ++ "flood_emergency" ++ " non trouvé"),
       fresh_agent) :=
  ⟨rfl, unknown_protocol_is_a_noop fresh_agent "flood_emergency" empty_context
    half_draws rfl⟩

theorem cycle_preserves_anomalies (s : SimState) (d : ReadingDraws) :
    (monitoring_cycle s d).active_anomalies = s.active_anomalies := rfl

theorem run_cycles_preserves_anomalies (ds : List ReadingDraws) :
    ∀ s : SimState, (run_cycles s ds).active_anomalies = s.active_anomalies := by
  induction ds with
  | nil => intro s; rfl
  | cons d ds ih =>
      intro s
      exact (ih (monitoring_cycle s d)).trans (cycle_preserves_anomalies s d)

/-- C5 (code bug): an anomaly triggered with duration 1 cycle is still in the
active set after arbitrarily many monitoring cycles — nothing in the code ever
removes it — and it still multiplies the production impact factor by 0.7
forever. -/
theorem triggered_anomaly_never_removed (t : ℕ) (ds : List ReadingDraws)
    (w : Weather) :
    (run_cycles (trigger_anomaly initial_state "dust_storm_impact" 1 "critical" t)
        ds).active_anomalies =
      [(storm_key t, ⟨"dust_storm_impact", 1, "critical", t⟩)] ∧
    calculate_production_impact
        (run_cycles (trigger_anomaly initial_state "dust_storm_impact" 1 "critical" t)
          ds).active_anomalies w =
      (7/10) * calculate_production_impact [] w := by
  have h := run_cycles_preserves_anomalies ds
    (trigger_anomaly initial_state "dust_storm_impact" 1 "critical" t)
  rw [h]
  refine ⟨rfl, ?_⟩
  calc calculate_production_impact
        [(storm_key t, ⟨"dust_storm_impact", 1, "critical", t⟩)] w
      = anomaly_severity_factor ⟨"dust_storm_impact", 1, "critical", t⟩ *
          calculate_production_impact [] w :=
        impact_insert [] [] (storm_key t) ⟨"dust_storm_impact", 1, "critical", t⟩ w
    _ = (7/10) * calculate_production_impact [] w := by norm_num [anomaly_severity_factor]

theorem pyRound2_le (x : ℚ) : pyRound2 x ≤ x + 1/200 := by
  unfold pyRound2
  dsimp only
  have hf : ((⌊x * 100⌋ : ℤ) : ℚ) ≤ x * 100 := Int.floor_le _
  have hf2 : x * 100 < ⌊x * 100⌋ + 1 := Int.lt_floor_add_one _
  split_ifs with h1 h2 h3 <;>
    rw [div_le_iff₀ (by norm_num : (0:ℚ) < 100)] <;> push_cast <;> linarith

theorem key_ne_sensor (id : String) (h : id.length < 18) (t : ℕ) :
    ((storm_key t) == id) = false := by
  rw [beq_eq_false_iff_ne]
  intro heq
  have hlen := congrArg String.length heq
  rw [storm_key, String.length_append] at hlen
  have h18 : ("dust_storm_impact_").length = 18 := rfl
  omega

theorem sensors_short : ∀ p ∈ sensors_config, p.1.length < 18 := by decide

theorem mapM_if_ok {β : Type} (msg : String)
    (cond : String × SensorConfig → Bool) (f : String × SensorConfig → β) :
    ∀ l : List (String × SensorConfig), (∀ p ∈ l, cond p = false) →
      (l.mapM (fun p => if cond p then Except.error msg else Except.ok (f p))
        : Except String (List β)) = Except.ok (l.map f) := by
  intro l
  induction l with
  | nil => intro _; rfl
  | cons x xs ih =>
      intro h
      have hx : cond x = false := h x (List.mem_cons_self x xs)
      have hxs := ih (fun p hp => h p (List.mem_cons_of_mem x hp))
      rw [List.mapM_cons, hxs]
      simp only [hx, Bool.false_eq_true, if_false]
      rfl

theorem dust_reading_fields (id : String) (cfg : SensorConfig)
    (h : cfg.stype = "dust") (wf pf tf b : ℚ) :
    (generate_optimized_reading id cfg wf pf tf b).value =
      pyRound2 (max 0 (b * wf * tf)) ∧
    (generate_optimized_reading id cfg wf pf tf b).status =
      optimized_status (max 0 (b * wf * tf)) cfg := by
  unfold generate_optimized_reading
  dsimp only
  rw [if_pos h]
  exact ⟨rfl, rfl⟩

theorem storm_weather_factor_one (t : ℕ) (d : ReadingDraws)
    (hhum : -20 ≤ d.wd.hum_d) (hwind : d.wd.wind_d ≤ 4) :
    (update_weather (storm_state t).weather d.wd).2 = 1 := by
  unfold update_weather
  dsimp only
  have hw8 : ¬ ((8:ℚ) < max 0 (16/5 + d.wd.wind_d)) := by
    have hle : max (0:ℚ) (16/5 + d.wd.wind_d) ≤ 36/5 :=
      max_le (by norm_num) (by linarith)
    exact not_lt.mpr (hle.trans (by norm_num))
  have hh30 : ¬ (max 20 (min 95 (65 + d.wd.hum_d)) < (30:ℚ)) := by
    have h45 : (45:ℚ) ≤ min 95 (65 + d.wd.hum_d) :=
      le_min (by norm_num) (by linarith)
    exact not_lt.mpr (le_trans (by linarith) (le_max_right 20 _))
  rw [if_neg hw8, if_neg hh30]
  norm_num

/-- C4 (code bug): after `trigger_anomaly("dust_storm_impact", 5, "critical")`
the next `get_all_sensor_readings` call does NOT produce anomaly readings:
the membership test compares sensor ids against the anomaly id
`dust_storm_impact_<t>` (and the anomaly branch would call the undefined
`_generate_anomaly_reading`), so the dust sensor `dust_extr_01` gets a nominal
reading whose value stays below 200 — outside the documented 200–400 anomaly
range — and whose status is not CRITICAL, for every admissible random draw. -/
theorem dust_storm_trigger_unreflected_in_readings (t : ℕ) (d : ReadingDraws)
    (hhum : -20 ≤ d.wd.hum_d) (hwind : d.wd.wind_d ≤ 4)
    (hsin : -1 ≤ d.sin_hour ∧ d.sin_hour ≤ 1)
    (hbase : 15 ≤ d.base "dust_extr_01" ∧ d.base "dust_extr_01" ≤ 45) :
    ∃ rs r,
      (get_all_sensor_readings (storm_state t) d).1 = Except.ok rs ∧
      rs.lookup "dust_extr_01" = some r ∧
      r.value < 200 ∧ r.status ≠ SensorStatus.critical := by
  have hcond : ∀ p ∈ sensors_config,
      ((storm_state t).active_anomalies.any (fun kv => kv.1 == p.1)) = false := by
    intro p hp
    have hact : (storm_state t).active_anomalies =
        [(storm_key t, ⟨"dust_storm_impact", 5, "critical", t⟩)] := rfl
    rw [hact]
    simp only [List.any_cons, List.any_nil, Bool.or_false]
    exact key_ne_sensor p.1 (sensors_short p hp) t
  have hmain := mapM_if_ok (β := String × Reading)
    "AttributeError: _generate_anomaly_reading is not defined"
    (fun p => (storm_state t).active_anomalies.any (fun kv => kv.1 == p.1))
    (fun p => (p.1, generate_optimized_reading p.1 p.2
      (update_weather (storm_state t).weather d.wd).2
      (calculate_production_impact (storm_state t).active_anomalies
        (update_weather (storm_state t).weather d.wd).1)
      (1 + (2/10) * d.sin_hour) (d.base p.1)))
    sensors_config hcond
  have hwf := storm_weather_factor_one t d hhum hwind
  obtain ⟨hval, hstat⟩ := dust_reading_fields "dust_extr_01"
    ⟨"dust", "Zone 1", "Fosse_Nord", 15, 45, "mg/m³", 100⟩ rfl
    ((update_weather (storm_state t).weather d.wd).2)
    (calculate_production_impact (storm_state t).active_anomalies
      (update_weather (storm_state t).weather d.wd).1)
    (1 + (2/10) * d.sin_hour) (d.base "dust_extr_01")
  have hv : max 0 (d.base "dust_extr_01" * 1 * (1 + (2/10) * d.sin_hour)) ≤ 54 := by
    have htf1 : (4/5 : ℚ) ≤ 1 + (2/10) * d.sin_hour := by linarith [hsin.1]
    have htf2 : 1 + (2/10) * d.sin_hour ≤ (6/5 : ℚ) := by linarith [hsin.2]
    have hb0 : (0:ℚ) ≤ d.base "dust_extr_01" := by linarith [hbase.1]
    have hmul : d.base "dust_extr_01" * 1 * (1 + (2/10) * d.sin_hour) ≤ 54 := by
      nlinarith [hbase.2, htf2, hb0, htf1]
    exact max_le (by norm_num) hmul
  refine ⟨_, _, hmain, rfl, ?_, ?_⟩
  · dsimp only
    rw [hval, hwf]
    calc pyRound2 (max 0 (d.base "dust_extr_01" * 1 * (1 + (2/10) * d.sin_hour)))
        ≤ max 0 (d.base "dust_extr_01" * 1 * (1 + (2/10) * d.sin_hour)) + 1/200 :=
          pyRound2_le _
      _ < 200 := by linarith
  · dsimp only
    rw [hstat, hwf]
    unfold optimized_status
    rw [if_neg]
    · split_ifs <;> simp
    · exact not_le.mpr (lt_of_le_of_lt hv (by norm_num))

theorem dust_storm_trigger_unreflected_in_readings_witness :
    (-20 ≤ calm_draws.wd.hum_d ∧ calm_draws.wd.wind_d ≤ 4 ∧
      (-1 ≤ calm_draws.sin_hour ∧ calm_draws.sin_hour ≤ 1) ∧
      (15 ≤ calm_draws.base "dust_extr_01" ∧ calm_draws.base "dust_extr_01" ≤ 45)) ∧
    (∃ rs r,
      (get_all_sensor_readings (storm_state 0) calm_draws).1 = Except.ok rs ∧
      rs.lookup "dust_extr_01" = some r ∧
      r.value < 200 ∧ r.status ≠ SensorStatus.critical) :=
  ⟨⟨by decide, by decide, ⟨by decide, by decide⟩, ⟨by decide, by decide⟩⟩,
   dust_storm_trigger_unreflected_in_readings 0 calm_draws (by decide) (by decide)
     ⟨by decide, by decide⟩ ⟨by decide, by decide⟩⟩

end MineSys
